import Mathlib

/-!
Verification of the validated get/set dispatch engine of the SDL1000X
instrument driver (`siglent_sdl1000x.py`).

Modelling conventions:
* Python `int` and `float` candidates are modelled exactly as scaled
  decimals `mant / 10 ^ exp` (`Dec`).  Every IEEE-754 double is a binary
  rational `m * 2 ^ (-k) = m * 5 ^ k / 10 ^ k`, hence exactly representable
  in this form; `round(x, d)` is modelled as exact decimal rounding with
  the half-to-even tie rule Python uses.
* Python string case folding (`str.lower` / `str.upper`) is modelled on
  ASCII characters, which covers every token and candidate the driver
  handles.
* `str(float)` is modelled by `Dec.render`, which prints the stored
  scaled-decimal representation in Python's decimal notation (a value in
  canonical shortest form renders exactly as Python prints it).
* The transport is a response oracle `Bus` (one response line per query
  line) plus an event trace recording each `write`, `query` and printed
  diagnostic, in order.  Mutable dictionaries become explicitly threaded
  association lists (`Mirror`).
* A Python exception escaping a call is modelled by `Except.error`;
  normal returns are `Except.ok`.
-/

set_option autoImplicit false

namespace SDL

/-- Exact value of a Python numeric object: `mant / 10 ^ exp`. -/
structure Dec where
  mant : ℤ
  exp : ℕ
deriving DecidableEq

/-- Value-level `x ≤ y` on scaled decimals, by cross multiplication. -/
def Dec.le (x y : Dec) : Bool :=
  decide (x.mant * 10 ^ y.exp ≤ y.mant * 10 ^ x.exp)

/-- Value-level `x = y` on scaled decimals (Python numeric equality). -/
def Dec.beq (x y : Dec) : Bool :=
  decide (x.mant * 10 ^ y.exp = y.mant * 10 ^ x.exp)

/-- Round `m / p` (`p > 0`) to the nearest integer, ties to even:
the tie rule of Python's builtin `round`. -/
def roundHalfEvenDiv (m : ℤ) (p : ℕ) : ℤ :=
  let q := Int.fdiv m p
  let r := m - q * p
  if 2 * r < p then q
  else if (p : ℤ) < 2 * r then q + 1
  else if q % 2 = 0 then q else q + 1

/-- Python `round(x, d)` on the exact value of a float: if the value
already has at most `d` decimal places it is unchanged, otherwise the
mantissa is rescaled with half-to-even rounding. -/
def Dec.pyRound (d : ℕ) (x : Dec) : Dec :=
  if x.exp ≤ d then x
  else ⟨roundHalfEvenDiv x.mant (10 ^ (x.exp - d)), d⟩

/-- ASCII lower-casing of one character (`str.lower`). -/
def lowChar (c : Char) : Char :=
  if 65 ≤ c.toNat ∧ c.toNat ≤ 90 then Char.ofNat (c.toNat + 32) else c

/-- ASCII upper-casing of one character (`str.upper`). -/
def upChar (c : Char) : Char :=
  if 97 ≤ c.toNat ∧ c.toNat ≤ 122 then Char.ofNat (c.toNat - 32) else c

/-- `str.lower`. -/
def lowerStr (s : String) : String := ⟨s.data.map lowChar⟩

/-- `str.upper`. -/
def upperStr (s : String) : String := ⟨s.data.map upChar⟩

/-- Does `hay` start with `needle`? -/
def startsWithLC : List Char → List Char → Bool
  | [], _ => true
  | _ :: _, [] => false
  | a :: as, b :: bs => a == b && startsWithLC as bs

/-- Contiguous-substring test on character lists. -/
def containsLC (needle : List Char) : List Char → Bool
  | [] => startsWithLC needle []
  | b :: bs => startsWithLC needle (b :: bs) || containsLC needle bs

/-- Python `needle in hay` on strings: contiguous substring containment. -/
def strIn (needle hay : String) : Bool := containsLC needle.data hay.data

/-- Python `str` of a float, from the stored scaled-decimal
representation: sign, integer part, decimal point, zero-padded fraction
(`exp = 0` renders with a trailing `.0`, as Python floats always carry a
decimal point). -/
def Dec.render (x : Dec) : String :=
  let a : ℕ := x.mant.natAbs
  let p : ℕ := 10 ^ x.exp
  let fs := toString (a % p)
  let sign : String := if x.mant < 0 then "-" else ""
  if x.exp = 0 then sign ++ toString a ++ ".0"
  else sign ++ toString (a / p) ++ "." ++
    (⟨List.replicate (x.exp - fs.length) (Char.ofNat 48)⟩ ++ fs)

/-- A Python value handed to an accessor: an `int`, a `float`, a `str`,
or some other object (e.g. a list), which every validator rejects as a
type error. -/
inductive PyVal where
  | int (n : ℤ)
  | float (x : Dec)
  | str (s : String)
  | listVal
deriving DecidableEq

/-- Python `str(value)`: the textual form interpolated into write lines. -/
def pyStr : PyVal → String
  | .int n => toString n
  | .float x => x.render
  | .str s => s
  | .listVal => "[]"

/-- Python `float(value)` for a numeric value. -/
def PyVal.asDec : PyVal → Dec
  | .int n => ⟨n, 0⟩
  | .float x => x
  | _ => ⟨0, 0⟩

/-- Python `str(...)` of a tuple of strings, e.g.
`str(('a', 'b'))` (single quotes, comma-space separators, and the
trailing comma of a one-element tuple). -/
def pyReprStrTuple : List String → String
  | [] => "()"
  | [t] => "('" ++ t ++ "',)"
  | ts => "(" ++ String.intercalate ", " (ts.map fun t => "'" ++ t ++ "'") ++ ")"

/-- Outcome of calling a validator on a candidate: the canonical string
on success, a returned `ValueError` / `TypeError` object on rejection,
or a genuine Python exception raised during the call itself. -/
inductive VOutcome where
  | ok (canonical : String)
  | valueError
  | typeError
  | raised
deriving DecidableEq

namespace Validate

/-- `Validate.float_range`: `lambda x, y: y[0] <= x <= y[1]`. -/
def float_range (x lo hi : Dec) : Bool := Dec.le lo x && Dec.le x hi

/-- `Validate.find_element`: `lambda x, y: x in y`, at string type
(substring containment). -/
def find_element (x y : String) : Bool := strIn x y

/-- `Validate.float_rng_and_str_tuples(validation_set, value, round_to)`
(lines 1697-1724): numeric candidates are rounded to `round_to` places
and range-checked against `validation_set[0]`; the string returned on
success is `str(value)` of the original, unrounded candidate.  String
candidates are lower-cased and tested for containment in
`str(validation_set[1]).lower()`; the upper-cased candidate is returned.
Anything else is a `TypeError`. -/
def float_rng_and_str_tuples (validation_set : (Dec × Dec) × List String)
    (value : PyVal) (round_to : ℕ) : VOutcome :=
  match value with
  | .int _ | .float _ =>
    let val := Dec.pyRound round_to value.asDec
    if float_range val validation_set.1.1 validation_set.1.2 then
      .ok (pyStr value)
    else .valueError
  | .str s =>
    let val := lowerStr s
    if find_element val (lowerStr (pyReprStrTuple validation_set.2)) then
      .ok (upperStr val)
    else .valueError
  | .listVal => .typeError

/-- `Validate.int_and_str_tuples(validation_set, value)` (lines
1784-1811): an `int` candidate is converted with `float(value)` and
tested for membership in the numeric tuple `validation_set[0]`; a string
candidate is handled as in `float_rng_and_str_tuples`; anything else
(including a `float`) is a `TypeError`. -/
def int_and_str_tuples (validation_set : List Dec × List String)
    (value : PyVal) : VOutcome :=
  match value with
  | .int n =>
    if validation_set.1.any (fun y => Dec.beq ⟨n, 0⟩ y) then
      .ok (pyStr value)
    else .valueError
  | .str s =>
    let val := lowerStr s
    if find_element val (lowerStr (pyReprStrTuple validation_set.2)) then
      .ok (upperStr val)
    else .valueError
  | _ => .typeError

/-- `Validate.str_tuple(validation_set, value)` (lines 1829-1843): the
lower-cased string candidate is tested for containment in
`str(validation_set).lower()` — the textual rendering of the whole token
tuple — and the upper-cased candidate is returned on success.
Non-strings are a `TypeError`. -/
def str_tuple (validation_set : List String) (value : PyVal) : VOutcome :=
  match value with
  | .str s =>
    let val := lowerStr s
    if find_element val (lowerStr (pyReprStrTuple validation_set)) then
      .ok (upperStr val)
    else .valueError
  | _ => .typeError

/-- `Validate.float_rng_tuple(validation_set, value, round_to)` (lines
1813-1827): numeric candidates only; round, range-check, and return
`str(value)` of the original candidate. -/
def float_rng_tuple (validation_set : Dec × Dec) (value : PyVal)
    (round_to : ℕ) : VOutcome :=
  match value with
  | .int _ | .float _ =>
    let val := Dec.pyRound round_to value.asDec
    if float_range val validation_set.1 validation_set.2 then
      .ok (pyStr value)
    else .valueError
  | _ => .typeError

end Validate

namespace ValidateInput

/-- `ValidateInput.on_off`: `((0, 1), ('ON', 'OFF'))`. -/
def on_off : PyVal → VOutcome :=
  Validate.int_and_str_tuples ([⟨0, 0⟩, ⟨1, 0⟩], ["ON", "OFF"])

/-- `ValidateInput.mode_static`. -/
def mode_static : PyVal → VOutcome :=
  Validate.str_tuple ["CURRent", "VOLTage", "POWer", "RESistance", "LED"]

/-- `ValidateInput.mode_dynamic`. -/
def mode_dynamic : PyVal → VOutcome :=
  Validate.str_tuple ["CURRent", "VOLTage", "POWer", "RESistance"]

/-- `ValidateInput.mode_transient`. -/
def mode_transient : PyVal → VOutcome :=
  Validate.str_tuple ["CONTinuous", "PULSe", "TOGGle"]

/-- `ValidateInput.current`: range `(0.0, 30.0)`, tokens
`('MINimum', 'MAXimum', 'DEFault')`, rounded to 3 places. -/
def current (value : PyVal) : VOutcome :=
  Validate.float_rng_and_str_tuples
    ((⟨0, 0⟩, ⟨30, 0⟩), ["MINimum", "MAXimum", "DEFault"]) value 3

/-- `ValidateInput.pulse_width`: range `(0.00002, 999.0)`, rounded to 6
places. -/
def pulse_width (value : PyVal) : VOutcome :=
  Validate.float_rng_and_str_tuples
    ((⟨2, 5⟩, ⟨999, 0⟩), ["MINimum", "MAXimum", "DEFault"]) value 6

end ValidateInput

/-- Response oracle of the transport: one response line per query line. -/
structure Bus where
  resp : String → String

/-- One observable effect on the environment: a line written to the
transport, a query round trip, or a printed warning diagnostic. -/
inductive Event where
  | write (line : String)
  | query (line : String)
  | print
deriving DecidableEq

namespace ValidateTest

/-- `ValidateTest.step_time` (lines 2015-2017) calls
`self.float_rng_and_str_tuples(step_time_values, value)` with the
required third argument `round_to` missing, so the call itself raises
`TypeError: ... missing 1 required positional argument` for every
candidate, before any validation logic runs. -/
def step_time : PyVal → VOutcome := fun _ => .raised

end ValidateTest

/-- CPython `is` between a string freshly built from transport I/O and a
string literal: object identity, not value equality.  The fresh object
is never the interned literal, so the comparison is `False` whatever the
characters are. -/
def pyIsFreshLiteral (_x _y : String) : Bool := false

namespace ValidateBattery

/-- `ValidateBattery.battery_level` (lines 1951-1959): query the current
battery sub-mode, pick bounds with `mode is 'CURRENT'` / `mode is
'VOLTAGE'` (object identity against literals), and range-check with
`float_rng_tuple(level_values, value, 3)`.  Returns the transport events
of the fresh sub-mode query together with the validation outcome. -/
def battery_level (bus : Bus) (value : PyVal) : List Event × VOutcome :=
  let mode := bus.resp ":BATT:MODE?"
  let level_values : Dec × Dec :=
    if pyIsFreshLiteral mode "CURRENT" then (⟨0, 0⟩, ⟨30, 0⟩)
    else if pyIsFreshLiteral mode "VOLTAGE" then (⟨0, 0⟩, ⟨150, 0⟩)
    else (⟨3, 2⟩, ⟨10000, 0⟩)
  ([Event.query ":BATT:MODE?"], Validate.float_rng_tuple level_values value 3)

/-- Modelled from the spec: the bound selection `battery_level` is
documented to perform — sub-mode compared by *value*: current →
`[0.0, 30.0]`, voltage → `[0.0, 150.0]`, resistance →
`[0.03, 10000.0]`. -/
def battery_level_intended (bus : Bus) (value : PyVal) :
    List Event × VOutcome :=
  let mode := bus.resp ":BATT:MODE?"
  let level_values : Dec × Dec :=
    if mode = "CURRENT" then (⟨0, 0⟩, ⟨30, 0⟩)
    else if mode = "VOLTAGE" then (⟨0, 0⟩, ⟨150, 0⟩)
    else (⟨3, 2⟩, ⟨10000, 0⟩)
  ([Event.query ":BATT:MODE?"], Validate.float_rng_tuple level_values value 3)

end ValidateBattery

/-- A parameter mirror: insertion-ordered mapping from parameter name to
last stored textual value (a Python dict of strings). -/
abbrev Mirror := List (String × String)

/-- Dictionary lookup. -/
def Mirror.getKey : Mirror → String → Option String
  | [], _ => none
  | (k, v) :: rest, key => if k = key then some v else Mirror.getKey rest key

/-- Dictionary store `d[key] = v` (replace in place, else append). -/
def Mirror.setKey : Mirror → String → String → Mirror
  | [], key, v => [(key, v)]
  | (k, w) :: rest, key, v =>
    if k = key then (key, v) :: rest else (k, w) :: Mirror.setKey rest key v

/-- Result of a `Command.read_write` call that returned normally: the
Python return value, the (possibly updated) target dictionary, and the
transport/diagnostic events of the call, in order. -/
structure RWOut where
  ret : Option String
  mirror : Option Mirror
  events : List Event
deriving DecidableEq

namespace Command

/-- `Command.read_write(query, write, validator, value, value_dict,
value_key)` (lines 2073-2095).  With no candidate: query and return the
response.  With a candidate and a validator: run the validator — a
raised exception propagates (`Except.error`); a returned
`ValueError`/`TypeError` object is printed and the call falls through,
returning `None` with nothing written and the dictionary untouched; on
success the line `write + ' ' + str(value)` is sent, the parameter is
re-queried, the response is stored under `value_key`, and `None` is
returned. -/
def read_write (bus : Bus) (q w : String)
    (validator : Option (PyVal → VOutcome)) (value : Option PyVal)
    (value_dict : Option Mirror) (value_key : String) : Except Unit RWOut :=
  match value with
  | none => .ok ⟨some (bus.resp q), value_dict, [.query q]⟩
  | some v =>
    match validator with
    | some f =>
      match f v with
      | .raised => .error ()
      | .valueError => .ok ⟨none, value_dict, [.print]⟩
      | .typeError => .ok ⟨none, value_dict, [.print]⟩
      | .ok _ =>
        let w2 := w ++ " " ++ pyStr v
        match value_dict with
        | some d =>
          .ok ⟨none, some (d.setKey value_key (bus.resp q)), [.write w2, .query q]⟩
        | none => .ok ⟨none, none, [.write w2]⟩
    | none =>
      let w2 := w ++ " " ++ pyStr v
      match value_dict with
      | some d =>
        .ok ⟨none, some (d.setKey value_key (bus.resp q)), [.write w2, .query q]⟩
      | none => .ok ⟨none, none, [.write w2]⟩

end Command

/-- An accessor set call through the Dispatcher: `read_write` with a
validator, a candidate, and a target dictionary, returning the updated
dictionary and the emitted events. -/
def rwSet (bus : Bus) (q w : String) (f : PyVal → VOutcome) (v : PyVal)
    (key : String) (m : Mirror) : Except Unit (Mirror × List Event) :=
  match Command.read_write bus q w (some f) (some v) (some m) key with
  | .error e => .error e
  | .ok o => .ok (o.mirror.getD m, o.events)

namespace Input

/-- `Input.input_control('ON')` (lines 282-294): the input-on write,
validated by `on_off` against the shared input mirror. -/
def input_control_on (bus : Bus) (g : Mirror) :
    Except Unit (Mirror × List Event) :=
  rwSet bus ":INP?" ":INP" ValidateInput.on_off (.str "ON") "input_on" g

end Input

namespace ModeStatic

/-- `ModeStatic._mode(tok)` for a supplied token (lines 357-366): the
Dispatcher call on `':FUNC'`, and — because a set call returns `None` —
a second fresh query whose response, decorated with the literal
`'STATIC '`, overwrites the shared mirror's `'mode'` entry. -/
def mode_set (bus : Bus) (tok : String) (g : Mirror) :
    Except Unit (Mirror × List Event) :=
  match Command.read_write bus ":FUNC?" ":FUNC" (some ValidateInput.mode_static)
      (some (.str tok)) (some g) "mode" with
  | .error e => .error e
  | .ok o =>
    match o.ret with
    | none =>
      let value := bus.resp ":FUNC?"
      .ok ((o.mirror.getD g).setKey "mode" ("STATIC " ++ value),
        o.events ++ [.query ":FUNC?"])
    | some _ => .ok (o.mirror.getD g, o.events)

end ModeStatic

namespace ModeCC

/-- `ModeCC.enable()`: `self._mode('CURR')`. -/
def enable (bus : Bus) (g : Mirror) : Except Unit (Mirror × List Event) :=
  ModeStatic.mode_set bus "CURR" g

/-- `ModeCC.on()` (lines 385-387): `enable()` then
`input_control('ON')`. -/
def on' (bus : Bus) (g : Mirror) : Except Unit (Mirror × List Event) :=
  match enable bus g with
  | .error e => .error e
  | .ok (g1, ev1) =>
    match Input.input_control_on bus g1 with
    | .error e => .error e
    | .ok (g2, ev2) => .ok (g2, ev1 ++ ev2)

end ModeCC

namespace ModeDynamic

/-- `ModeDynamic._mode(tok)` for a supplied token (lines 637-646):
like the static variant, against `':FUNC:TRAN'` with the `'DYNAMIC '`
decoration. -/
def mode_set (bus : Bus) (tok : String) (g : Mirror) :
    Except Unit (Mirror × List Event) :=
  match Command.read_write bus ":FUNC:TRAN?" ":FUNC:TRAN"
      (some ValidateInput.mode_dynamic) (some (.str tok)) (some g) "mode" with
  | .error e => .error e
  | .ok o =>
    match o.ret with
    | none =>
      let value := bus.resp ":FUNC:TRAN?"
      .ok ((o.mirror.getD g).setKey "mode" ("DYNAMIC " ++ value),
        o.events ++ [.query ":FUNC:TRAN?"])
    | some _ => .ok (o.mirror.getD g, o.events)

end ModeDynamic

namespace ModeDynamicCC

/-- `ModeDynamicCC.enable()`: `self._mode('CURR')`. -/
def enable (bus : Bus) (g : Mirror) : Except Unit (Mirror × List Event) :=
  ModeDynamic.mode_set bus "CURR" g

/-- `ModeDynamicCC.on()` (lines 668-670). -/
def on' (bus : Bus) (g : Mirror) : Except Unit (Mirror × List Event) :=
  match enable bus g with
  | .error e => .error e
  | .ok (g1, ev1) =>
    match Input.input_control_on bus g1 with
    | .error e => .error e
    | .ok (g2, ev2) => .ok (g2, ev1 ++ ev2)

/-- `ModeDynamicCC.pulse_mode(tok)` with a candidate (lines 675-680). -/
def pulse_mode (bus : Bus) (v : PyVal) (m : Mirror) :
    Except Unit (Mirror × List Event) :=
  rwSet bus ":CURR:TRAN:MODE?" ":CURR:TRAN:MODE" ValidateInput.mode_transient
    v "pulse_mode" m

/-- `ModeDynamicCC.a_level(v)` with a candidate (lines 682-687). -/
def a_level (bus : Bus) (v : PyVal) (m : Mirror) :
    Except Unit (Mirror × List Event) :=
  rwSet bus ":CURR:TRAN:ALEV?" ":CURR:TRAN:ALEV" ValidateInput.current
    v "a_level" m

/-- `ModeDynamicCC.b_level(v)` with a candidate (lines 689-694). -/
def b_level (bus : Bus) (v : PyVal) (m : Mirror) :
    Except Unit (Mirror × List Event) :=
  rwSet bus ":CURR:TRAN:BLEV?" ":CURR:TRAN:BLEV" ValidateInput.current
    v "b_level" m

/-- `ModeDynamicCC.a_width(v)` with a candidate (lines 696-701). -/
def a_width (bus : Bus) (v : PyVal) (m : Mirror) :
    Except Unit (Mirror × List Event) :=
  rwSet bus ":CURR:TRAN:AWID?" ":CURR:TRAN:AWID" ValidateInput.pulse_width
    v "a_width" m

/-- `ModeDynamicCC.b_width(v)` with a candidate (lines 703-708). -/
def b_width (bus : Bus) (v : PyVal) (m : Mirror) :
    Except Unit (Mirror × List Event) :=
  rwSet bus ":CURR:TRAN:BWID?" ":CURR:TRAN:BWID" ValidateInput.pulse_width
    v "b_width" m

/-- `ModeDynamicCC.set_a_and_b(a, b, wa, wb)` (lines 710-714): the four
Dispatcher calls in source order, each threading the mode mirror. -/
def set_a_and_b (bus : Bus) (a b wa wb : PyVal) (m : Mirror) :
    Except Unit (Mirror × List Event) :=
  match a_level bus a m with
  | .error e => .error e
  | .ok (m1, e1) =>
    match b_level bus b m1 with
    | .error e => .error e
    | .ok (m2, e2) =>
      match a_width bus wa m2 with
      | .error e => .error e
      | .ok (m3, e3) =>
        match b_width bus wb m3 with
        | .error e => .error e
        | .ok (m4, e4) => .ok (m4, e1 ++ e2 ++ e3 ++ e4)

end ModeDynamicCC

namespace ModeList

/-- `ModeList.enable()` (lines 1041-1044): store the literal `'LIST'`
into the shared input mirror's `'mode'` entry, then send
`':LIST:STAT:ON'`.  No query is issued. -/
def enable (g : Mirror) : Mirror × List Event :=
  (g.setKey "mode" "LIST", [.write ":LIST:STAT:ON"])

/-- `ModeList.on()` (lines 1037-1039). -/
def on' (bus : Bus) (g : Mirror) : Except Unit (Mirror × List Event) :=
  match enable g with
  | (g1, ev1) =>
    match Input.input_control_on bus g1 with
    | .error e => .error e
    | .ok (g2, ev2) => .ok (g2, ev1 ++ ev2)

end ModeList

namespace ModeOCP

/-- `ModeOCP.step_delay(v)` with a candidate (lines 1315-1320): wired to
the `ValidateTest.step_time` validator. -/
def step_delay (bus : Bus) (v : PyVal) (m : Mirror) :
    Except Unit (Mirror × List Event) :=
  rwSet bus ":OCP:STEP?" ":OCP:STEP" ValidateTest.step_time v "step_delay" m

end ModeOCP

/-- The write lines of a trace, in order. -/
def writesOf (evs : List Event) : List String :=
  evs.filterMap fun e =>
    match e with
    | .write s => some s
    | _ => none

end SDL

namespace SDL

theorem getKey_setKey_self (m : Mirror) (k v : String) :
    (m.setKey k v).getKey k = some v := by
  induction m with
  | nil => simp [Mirror.setKey, Mirror.getKey]
  | cons p rest ih =>
    obtain ⟨k1, w1⟩ := p
    by_cases h : k1 = k <;> simp [Mirror.setKey, Mirror.getKey, h, ih]

theorem getKey_setKey_ne (m : Mirror) (k k' v : String) (h : k' ≠ k) :
    (m.setKey k v).getKey k' = m.getKey k' := by
  induction m with
  | nil => simp [Mirror.setKey, Mirror.getKey, Ne.symm h]
  | cons p rest ih =>
    obtain ⟨k1, w1⟩ := p
    by_cases h1 : k1 = k
    · subst h1
      simp [Mirror.setKey, Mirror.getKey, Ne.symm h]
    · by_cases h2 : k1 = k' <;> simp [Mirror.setKey, Mirror.getKey, h, h1, h2, ih]

theorem rwSet_ok_of_ok (bus : Bus) (q w : String) (f : PyVal → VOutcome)
    (v : PyVal) (key : String) (m : Mirror) (c : String) (h : f v = .ok c) :
    rwSet bus q w f v key m =
      .ok (m.setKey key (bus.resp q), [.write (w ++ " " ++ pyStr v), .query q]) := by
  simp [rwSet, Command.read_write, h]

theorem rwSet_rejected (bus : Bus) (q w : String) (f : PyVal → VOutcome)
    (v : PyVal) (key : String) (m : Mirror)
    (h : f v = .valueError ∨ f v = .typeError) :
    rwSet bus q w f v key m = .ok (m, [.print]) := by
  rcases h with h | h <;> simp [rwSet, Command.read_write, h]

theorem rwSet_not_raised (bus : Bus) (q w : String) (f : PyVal → VOutcome)
    (v : PyVal) (key : String) (m : Mirror) (h : f v ≠ .raised) :
    ∃ m' ev, rwSet bus q w f v key m = .ok (m', ev) ∧
      ∀ k, k ≠ key → m'.getKey k = m.getKey k := by
  cases hf : f v with
  | ok c =>
    exact ⟨_, _, rwSet_ok_of_ok bus q w f v key m c hf,
      fun k hk => getKey_setKey_ne m key k (bus.resp q) hk⟩
  | valueError => exact ⟨m, [.print], rwSet_rejected bus q w f v key m (.inl hf), fun _ _ => rfl⟩
  | typeError => exact ⟨m, [.print], rwSet_rejected bus q w f v key m (.inr hf), fun _ _ => rfl⟩
  | raised => exact absurd hf h

theorem pulse_width_ne_raised (v : PyVal) :
    ValidateInput.pulse_width v ≠ .raised := by
  cases v <;> simp [ValidateInput.pulse_width, Validate.float_rng_and_str_tuples] <;> split <;> simp

/-- Claim C1: for every accessor set call whose candidate passes its
configured validation rule, the Dispatcher sends exactly the write
template followed by a space and the unmodified string form of the raw
candidate (`pyStr v`, not the validator's canonical string `c`),
re-issues the query command, stores the query response into the target
mirror under the configured key, and returns no result. -/
theorem read_write_set_success (bus : Bus) (q w : String)
    (f : PyVal → VOutcome) (v : PyVal) (c key : String) (m : Mirror)
    (h : f v = .ok c) :
    Command.read_write bus q w (some f) (some v) (some m) key =
      .ok ⟨none, some (m.setKey key (bus.resp q)),
        [.write (w ++ " " ++ pyStr v), .query q]⟩ := by
  simp [Command.read_write, h]

/-- Witness for C1 at a concrete input: candidate `'on'`, whose
canonical form is `'ON'`, is interpolated raw (`:INP on`). -/
theorem read_write_set_success_witness :
    ValidateInput.on_off (.str "on") = .ok "ON" ∧
    Command.read_write ⟨fun _ => "1"⟩ ":INP?" ":INP" (some ValidateInput.on_off)
        (some (.str "on")) (some [("input_on", "0")]) "input_on" =
      .ok ⟨none, some [("input_on", "1")], [.write ":INP on", .query ":INP?"]⟩ :=
  ⟨by decide,
    read_write_set_success ⟨fun _ => "1"⟩ ":INP?" ":INP" ValidateInput.on_off
      (.str "on") "ON" "input_on" [("input_on", "0")] (by decide)⟩

/-- Claim C2: for every accessor set call whose candidate is rejected by
the configured validation rule, the call is a no-op apart from a printed
diagnostic: no write is sent, the mirror is returned unchanged (hence
retains its pre-call value at every key), and no result is returned. -/
theorem read_write_set_rejected (bus : Bus) (q w : String)
    (f : PyVal → VOutcome) (v : PyVal) (key : String) (m : Mirror)
    (h : f v = .valueError ∨ f v = .typeError) :
    Command.read_write bus q w (some f) (some v) (some m) key =
      .ok ⟨none, some m, [.print]⟩ := by
  rcases h with h | h <;> simp [Command.read_write, h]

/-- Witness for C2 at a concrete input: 35.0 against the current rule
[0.0, 30.0]. -/
theorem read_write_set_rejected_witness :
    ValidateInput.current (.float ⟨35, 0⟩) = .valueError ∧
    Command.read_write ⟨fun _ => "0.250000"⟩ ":CURR?" ":CURR"
        (some ValidateInput.current) (some (.float ⟨35, 0⟩))
        (some [("level", "0.250000")]) "level" =
      .ok ⟨none, some [("level", "0.250000")], [.print]⟩ :=
  ⟨by decide,
    read_write_set_rejected ⟨fun _ => "0.250000"⟩ ":CURR?" ":CURR"
      ValidateInput.current (.float ⟨35, 0⟩) "level" [("level", "0.250000")]
      (.inl (by decide))⟩

/-- Counterexample to C3: `ModeList.enable` stores the literal `'LIST'`
into the shared input mirror's active-function entry while its event
trace is a single write — no query at all is issued, so the stored value
is an optimistic literal, not an instrument query response. -/
theorem modeList_enable_stores_literal :
    (ModeList.enable [("mode", "STATIC CURRENT")]).1.getKey "mode" = some "LIST" ∧
    (ModeList.enable [("mode", "STATIC CURRENT")]).2 = [Event.write ":LIST:STAT:ON"] := by
  decide

/-- Claim C3 (amended): for every Dispatcher (`read_write`) call that
returns normally, the target mirror is either unchanged or updated at
exactly the configured key with the fresh response of the query command —
the Dispatcher never stores an unconfirmed literal.  (The unamended
claim fails for the sequencing/test modes' `enable()`, which bypasses the
Dispatcher: see the counterexample.) -/
theorem read_write_mirror_update_confirmed (bus : Bus) (q w : String)
    (validator : Option (PyVal → VOutcome)) (value : Option PyVal)
    (m : Mirror) (key : String) (out : RWOut)
    (h : Command.read_write bus q w validator value (some m) key = .ok out) :
    out.mirror = some m ∨ out.mirror = some (m.setKey key (bus.resp q)) := by
  cases value with
  | none =>
    simp [Command.read_write] at h
    subst h
    exact .inl rfl
  | some v =>
    cases validator with
    | none =>
      simp [Command.read_write] at h
      subst h
      exact .inr rfl
    | some f =>
      cases hf : f v <;> simp [Command.read_write, hf] at h <;> subst h
      · exact .inr rfl
      · exact .inl rfl
      · exact .inl rfl

/-- Witness for the amended C3 at a concrete input. -/
theorem read_write_mirror_update_confirmed_witness :
    (RWOut.mirror ⟨none, some [("level", "2.500000")], [.write ":CURR 2.5", .query ":CURR?"]⟩ =
        some [("level", "0.0")] ∨
      RWOut.mirror ⟨none, some [("level", "2.500000")], [.write ":CURR 2.5", .query ":CURR?"]⟩ =
        some (Mirror.setKey [("level", "0.0")] "level" (Bus.resp ⟨fun _ => "2.500000"⟩ ":CURR?"))) :=
  read_write_mirror_update_confirmed ⟨fun _ => "2.500000"⟩ ":CURR?" ":CURR"
    (some ValidateInput.current) (some (.float ⟨25, 1⟩)) [("level", "0.0")] "level"
    ⟨none, some [("level", "2.500000")], [.write ":CURR 2.5", .query ":CURR?"]⟩ rfl

/-- Claim C4 (code bug evidence): an accessor set call through
`ModeOCP.step_delay` raises for every candidate value — the
`ValidateTest.step_time` validator calls `float_rng_and_str_tuples`
without its required `round_to` argument, so a `TypeError` escapes to
the caller instead of being returned, printed, and swallowed. -/
theorem ocp_step_delay_raises (bus : Bus) (v : PyVal) (m : Mirror) :
    ModeOCP.step_delay bus v m = .error () := rfl

/-- Claim C5: a numeric (int or float) candidate against a range rule is
accepted exactly when its value rounded to the rule's configured number
of decimal places lies in the closed interval [min, max] (boundaries
included), and the canonical string returned on acceptance is the
original unrounded candidate's string form (e.g. 1.23456 is validated as
1.235 but returned as "1.23456"). -/
theorem float_rng_rounds_then_closed_interval (lo hi : Dec) (toks : List String)
    (d : ℕ) (x : Dec) (n : ℤ) :
    (Validate.float_rng_and_str_tuples ((lo, hi), toks) (.float x) d =
        .ok (pyStr (.float x)) ↔
      Dec.le lo (Dec.pyRound d x) = true ∧ Dec.le (Dec.pyRound d x) hi = true) ∧
    (Validate.float_rng_and_str_tuples ((lo, hi), toks) (.int n) d =
        .ok (pyStr (.int n)) ↔
      Dec.le lo (Dec.pyRound d ⟨n, 0⟩) = true ∧ Dec.le (Dec.pyRound d ⟨n, 0⟩) hi = true) ∧
    ValidateInput.current (.float ⟨0, 0⟩) = .ok "0.0" ∧
    ValidateInput.current (.float ⟨30, 0⟩) = .ok "30.0" ∧
    ValidateInput.current (.float ⟨123456, 5⟩) = .ok "1.23456" := by
  refine ⟨?_, ?_, by decide, by decide, by decide⟩ <;>
    · simp only [Validate.float_rng_and_str_tuples, PyVal.asDec, Validate.float_range]
      split <;> rename_i hcond
      · simp_all [Bool.and_eq_true]
      · simp_all [Bool.and_eq_true]

/-- Counterexample to C6: the candidate `'ulse'` is accepted by the
transient-mode enum rule and canonicalized to `'ULSE'` although it
matches none of the rule's tokens case-insensitively — acceptance is not
"exactly when it matches one of the tokens". -/
theorem str_tuple_accepts_non_token :
    ValidateInput.mode_transient (.str "ulse") = .ok "ULSE" ∧
    (["CONTinuous", "PULSe", "TOGGle"].all fun t =>
      !(lowerStr "ulse" == lowerStr t)) = true := by
  decide

/-- Claim C6 (amended): a string candidate against an enum/token rule is
accepted exactly when its lower-cased form is a contiguous substring of
the lower-cased textual rendering of the whole token tuple, and the
canonical form returned is the upper-cased candidate; in particular
every exact token is accepted case-insensitively and inputs differing
only in case canonicalize identically — but proper fragments are also
accepted (see the counterexample). -/
theorem str_tuple_substring_semantics (toks : List String) (s : String) :
    (Validate.str_tuple toks (.str s) = .ok (upperStr (lowerStr s)) ↔
      strIn (lowerStr s) (lowerStr (pyReprStrTuple toks)) = true) ∧
    (["CONTinuous", "PULSe", "TOGGle"].all fun t =>
      ValidateInput.mode_transient (.str t) == .ok (upperStr (lowerStr t))) = true := by
  refine ⟨?_, by decide⟩
  simp only [Validate.str_tuple, Validate.find_element]
  split <;> rename_i hcond <;> simp_all

/-- Claim C7: the token branch decides membership by substring
containment of the lower-cased candidate in the lower-cased rendering of
the token tuple, so a proper fragment of a token (`'ulse'`) and text
spanning the rendered separators (`"e', 'togg"`) are accepted and
canonicalized to their upper-cased forms, and the Dispatcher then sends
a write for such a candidate. -/
theorem find_element_substring_accepts_fragments :
    ValidateInput.mode_transient (.str "ulse") = .ok "ULSE" ∧
    (["CONTinuous", "PULSe", "TOGGle"].all fun t =>
      !(lowerStr "ulse" == lowerStr t)) = true ∧
    ValidateInput.mode_transient (.str "e', 'togg") = .ok "E', 'TOGG" ∧
    ModeDynamicCC.pulse_mode ⟨fun _ => "PULSE"⟩ (.str "ulse")
        [("pulse_mode", "CONTINUOUS")] =
      .ok ([("pulse_mode", "PULSE")],
        [.write ":CURR:TRAN:MODE ulse", .query ":CURR:TRAN:MODE?"]) := by
  refine ⟨by decide, by decide, by decide, ?_⟩
  rfl

/-- Claim C8 (code bug evidence): with the instrument reporting battery
sub-mode `CURRENT`, the level candidate 100.0 — outside the claimed
current-mode bounds [0.0, 30.0] — is nevertheless accepted, because the
source compares the freshly queried sub-mode string against literals
with `is` (object identity), which is false for a fresh I/O string, so
the bounds are always (0.03, 10000.0); the spec-modelled value-equality
variant rejects the same candidate. -/
theorem battery_level_identity_comparison_bug :
    ValidateBattery.battery_level ⟨fun _ => "CURRENT"⟩ (.float ⟨100, 0⟩) =
      ([Event.query ":BATT:MODE?"], .ok "100.0") ∧
    Dec.le ⟨100, 0⟩ ⟨30, 0⟩ = false ∧
    ValidateBattery.battery_level_intended ⟨fun _ => "CURRENT"⟩ (.float ⟨100, 0⟩) =
      ([Event.query ":BATT:MODE?"], .valueError) := by
  decide

/-- Claim C9: for each modelled concrete mode (static CC, dynamic CC,
list), `on()` performs that mode's `enable()` and then the input-on
write: the whole call issues exactly two writes, the function-select
write strictly before the input-on write, for every transport oracle and
every initial mirror. -/
theorem on_issues_function_select_then_input_on (bus : Bus) (g : Mirror) :
    (∃ out, ModeCC.on' bus g = .ok out ∧
      writesOf out.2 = [":FUNC CURR", ":INP ON"]) ∧
    (∃ out, ModeDynamicCC.on' bus g = .ok out ∧
      writesOf out.2 = [":FUNC:TRAN CURR", ":INP ON"]) ∧
    (∃ out, ModeList.on' bus g = .ok out ∧
      writesOf out.2 = [":LIST:STAT:ON", ":INP ON"]) :=
  ⟨⟨_, rfl, rfl⟩, ⟨_, rfl, rfl⟩, ⟨_, rfl, rfl⟩⟩

/-- Claim C10: `set_a_and_b(a, b, wa, wb)` is four independent
validate-write-reconfirm Dispatcher calls in the order a_level, b_level,
a_width, b_width with no transactional guarantee: when `b` fails
validation, the `a` write and its mirror reconfirmation have already
happened and persist — the trace starts with the a-level write, its
reconfirm query, then b's diagnostic, and the final mirror holds the new
`a_level` and the old `b_level`. -/
theorem set_a_and_b_no_transaction (bus : Bus) (m : Mirror)
    (a b wa wb : PyVal) (ca : String)
    (ha : ValidateInput.current a = .ok ca)
    (hb : ValidateInput.current b = .valueError) :
    ∃ m' ev,
      ModeDynamicCC.set_a_and_b bus a b wa wb m =
        .ok (m', [.write (":CURR:TRAN:ALEV " ++ pyStr a), .query ":CURR:TRAN:ALEV?",
          Event.print] ++ ev) ∧
      m'.getKey "a_level" = some (bus.resp ":CURR:TRAN:ALEV?") ∧
      m'.getKey "b_level" = Mirror.getKey m "b_level" := by
  obtain ⟨m3, e3, h3, hp3⟩ := rwSet_not_raised bus ":CURR:TRAN:AWID?" ":CURR:TRAN:AWID"
    ValidateInput.pulse_width wa "a_width"
    (Mirror.setKey m "a_level" (bus.resp ":CURR:TRAN:ALEV?"))
    (pulse_width_ne_raised wa)
  obtain ⟨m4, e4, h4, hp4⟩ := rwSet_not_raised bus ":CURR:TRAN:BWID?" ":CURR:TRAN:BWID"
    ValidateInput.pulse_width wb "b_width" m3 (pulse_width_ne_raised wb)
  refine ⟨m4, e3 ++ e4, ?_, ?_, ?_⟩
  · simp only [ModeDynamicCC.set_a_and_b, ModeDynamicCC.a_level, ModeDynamicCC.b_level,
      ModeDynamicCC.a_width, ModeDynamicCC.b_width,
      rwSet_ok_of_ok bus ":CURR:TRAN:ALEV?" ":CURR:TRAN:ALEV" ValidateInput.current a
        "a_level" m ca ha,
      rwSet_rejected bus ":CURR:TRAN:BLEV?" ":CURR:TRAN:BLEV" ValidateInput.current b
        "b_level" _ (.inl hb), h3, h4]
    simp
  · rw [hp4 "a_level" (by decide), hp3 "a_level" (by decide),
      getKey_setKey_self]
  · rw [hp4 "b_level" (by decide), hp3 "b_level" (by decide),
      getKey_setKey_ne m "a_level" "b_level" _ (by decide)]

/-- Witness for C10 at concrete inputs: a = 2.5 (valid), b = 35.0
(invalid). -/
theorem set_a_and_b_no_transaction_witness :
    ValidateInput.current (.float ⟨25, 1⟩) = .ok "2.5" ∧
    ∃ m' ev,
      ModeDynamicCC.set_a_and_b ⟨fun _ => "2.500000"⟩ (.float ⟨25, 1⟩)
          (.float ⟨35, 0⟩) (.float ⟨2, 3⟩) (.float ⟨1, 4⟩)
          [("a_level", "0.0"), ("b_level", "1.0")] =
        .ok (m', [.write ":CURR:TRAN:ALEV 2.5", .query ":CURR:TRAN:ALEV?",
          Event.print] ++ ev) ∧
      m'.getKey "a_level" = some "2.500000" ∧
      m'.getKey "b_level" = some "1.0" :=
  ⟨by decide,
    set_a_and_b_no_transaction ⟨fun _ => "2.500000"⟩
      [("a_level", "0.0"), ("b_level", "1.0")] (.float ⟨25, 1⟩) (.float ⟨35, 0⟩)
      (.float ⟨2, 3⟩) (.float ⟨1, 4⟩) "2.5" (by decide) (by decide)⟩

end SDL
